import Mathlib

/-!
A shallow embedding of the data-source model of this repository
(`packages/back-end/src/models/DataSourceModel.ts`) and of the
`StringArrayField` React component, together with theorems checking the
natural-language specification against it.

Modelling conventions:
* The mongoose document collection is a `List DataSourceInterface` (the
  `Store`), with the unique compound index on `(id, organization)` declared by
  `dataSourceSchema.index({id: 1, organization: 1}, {unique: true})` enforced
  on every insert and update (a violating write fails with a duplicate-key
  error, as the document store does).
* External services (`usingFileConfig`, `getConfigDatasources`,
  `encryptParams`, `testDataSourceConnection`, the Google OAuth token
  exchange, the `uniqid` id generator and the clock) live in an `Env` record;
  `uniqid(p)` returns `p` followed by a generated suffix, modelled as
  `p ++ env.freshSuffix`.
* Thrown JavaScript exceptions are `Except.error` values carrying the message;
  each store operation returns its result together with the (possibly
  unchanged) store, so that the effect of a throwing call on the collection is
  observable.
* JavaScript truthiness on optional fields: `none` (absent/null) is falsy, a
  present string is falsy exactly when it is empty, present objects and
  arrays (even empty ones) are truthy.
-/

/-- An entry of `settings.ids` (an identifier type of the data source). -/
structure IdentifierEntry where
  id : String
  description : String
deriving DecidableEq, Repr

/-- The `main` block of the synthesized `exposure` query. -/
structure ExposureMain where
  description : String
  dimensions : List String
  ids : List String
  query : String
deriving DecidableEq, Repr

/-- The `settings.queries.exposure` object. -/
structure ExposureQueries where
  main : ExposureMain
deriving DecidableEq, Repr

/-- The `settings.queries` object: a legacy `experimentsQuery` string and the
newer `exposure` block, each possibly absent. -/
structure DataSourceQueries where
  experimentsQuery : Option String
  exposure : Option ExposureQueries
deriving DecidableEq, Repr

/-- The free-form `settings` bundle of a data source, restricted to the fields
`upgradeDatasourceObject` reads or writes. -/
structure DataSourceSettings where
  ids : Option (List IdentifierEntry)
  queries : Option DataSourceQueries
  experimentDimensions : Option (List String)
deriving DecidableEq, Repr

/-- The structured connection parameters (`DataSourceParams`).  Only the
`refreshToken` field is ever accessed by name (by the `google_analytics`
branch of `createDataSource`); the rest is an opaque blob. -/
structure DataSourceParams where
  refreshToken : String
  blob : String
deriving DecidableEq, Repr

/-- A persisted data-source record (`DataSourceInterface`).  `params` holds the
encrypted blob (the schema stores it as a string); `settings` is optional at
runtime because legacy documents may lack it, even though the TypeScript type
declares it. -/
structure DataSourceInterface where
  id : String
  name : String
  organization : String
  type : String
  settings : Option DataSourceSettings
  dateCreated : Nat
  dateUpdated : Nat
  params : String
deriving DecidableEq, Repr

/-- The document collection backing `DataSourceModel`, in insertion order. -/
abbrev Store := List DataSourceInterface

/-- The process environment: the file-config mode flag, the static
configuration, and the external services `DataSourceModel.ts` imports. -/
structure Env where
  usingFileConfig : Bool
  configDatasources : String → List DataSourceInterface
  encryptParams : DataSourceParams → String
  testDataSourceConnection : DataSourceInterface → Except String Unit
  getToken : String → Except String (Option String)
  freshSuffix : String
  now : Nat

/-- The default identifier entries synthesized for `settings.ids`. -/
def defaultIds : List IdentifierEntry :=
  [{ id := "user_id", description := "Logged-in user id" },
   { id := "anonymous_id", description := "Anonymous visitor id" }]

/-- The `exposure` block derived from a legacy experiments query. -/
def mkExposureQueries (dims : List String) (q : String) : ExposureQueries :=
  { main := { description := "Main experiment exposures table",
              dimensions := dims,
              ids := ["user_id", "anonymous_id"],
              query := q } }

/-- The `if (!settings?.ids)` branch of `upgradeDatasourceObject`: absent
(`undefined`/`null`) `ids` is replaced by the defaults; a present array, even
an empty one, is truthy and kept. -/
def upgradeIds (s : DataSourceSettings) : DataSourceSettings :=
  if s.ids.isNone then { s with ids := some defaultIds } else s

/-- The `if (settings?.queries?.experimentsQuery && !settings?.queries?.exposure)`
branch of `upgradeDatasourceObject`: `experimentsQuery` is truthy exactly when
present and non-empty, `exposure` (an object) is falsy exactly when absent. -/
def upgradeExposure (s : DataSourceSettings) : DataSourceSettings :=
  match s.queries with
  | none => s
  | some q =>
    match q.experimentsQuery with
    | none => s
    | some eq =>
      if eq = "" then s
      else
        match q.exposure with
        | some _ => s
        | none =>
          let exp := mkExposureQueries (s.experimentDimensions.getD []) eq
          { s with queries := some { q with exposure := some exp } }

/-- The effect of `upgradeDatasourceObject` on a defined settings object: the
`ids` branch first, then the `exposure` branch (which reads
`datasource.settings.experimentDimensions` from the same object). -/
def upgradeSettings (s : DataSourceSettings) : DataSourceSettings :=
  upgradeExposure (upgradeIds s)

/-- `upgradeDatasourceObject`.  When the record's `settings` is absent, the
guard `!settings?.ids` succeeds and the assignment `settings.ids = ...` faults
with a `TypeError`; otherwise the settings are upgraded in place and the
record returned. -/
def upgradeDatasourceObject (datasource : DataSourceInterface) :
    Except String DataSourceInterface :=
  match datasource.settings with
  | none =>
    Except.error "TypeError: Cannot set properties of undefined (setting ids)"
  | some s => Except.ok { datasource with settings := some (upgradeSettings s) }

/-- `toInterface`: convert a fetched document and apply the lazy upgrade. -/
def toInterface (doc : DataSourceInterface) : Except String DataSourceInterface :=
  upgradeDatasourceObject doc

/-- The mongoose query filter `{id, organization}`. -/
def matchesKey (id organization : String) (d : DataSourceInterface) : Bool :=
  d.id == id && d.organization == organization

/-- The `(id, organization)` key of a record, the unique compound index. -/
def keyOf (d : DataSourceInterface) : String × String :=
  (d.id, d.organization)

/-- `getDataSourcesByOrganization`: in file-config mode the static list is
returned immediately; otherwise every document of the organization is fetched
and converted through `toInterface`. -/
def getDataSourcesByOrganization (env : Env) (st : Store) (organization : String) :
    Except String (List DataSourceInterface) :=
  if env.usingFileConfig then
    Except.ok (env.configDatasources organization)
  else
    (List.filter (fun d => d.organization == organization) st).mapM toInterface

/-- `getDataSourceById`: in file-config mode, the first static data source of
the organization whose id matches (`filter(...)[0] || null`); otherwise
`findOne` on the collection followed by `toInterface`. -/
def getDataSourceById (env : Env) (st : Store) (id organization : String) :
    Except String (Option DataSourceInterface) :=
  if env.usingFileConfig then
    Except.ok (List.head? (List.filter (fun d => d.id == id)
      (env.configDatasources organization)))
  else
    match List.find? (matchesKey id organization) st with
    | none => Except.ok none
    | some doc => Except.map some (toInterface doc)

/-- `deleteOne`: remove the first document matching the predicate, if any. -/
def deleteFirst (p : DataSourceInterface → Bool) : List DataSourceInterface → List DataSourceInterface
  | [] => []
  | d :: rest => if p d then rest else d :: deleteFirst p rest

/-- `deleteDatasourceById`: rejected in file-config mode, otherwise
`deleteOne({id, organization})`. -/
def deleteDatasourceById (env : Env) (st : Store) (id organization : String) :
    Except String Unit × Store :=
  if env.usingFileConfig then
    (Except.error "Cannot delete. Data sources managed by config.yml", st)
  else
    (Except.ok (), deleteFirst (matchesKey id organization) st)

/-- The `google_analytics` branch of `createDataSource`: exchange the refresh
token through the OAuth client (which may throw) and store
`tokens.refresh_token || ""`.  Other types keep their params unchanged. -/
def oauthParams (env : Env) (ty : String) (params : DataSourceParams) :
    Except String DataSourceParams :=
  if ty = "google_analytics" then
    match env.getToken params.refreshToken with
    | Except.error e => Except.error e
    | Except.ok tok => Except.ok { params with refreshToken := tok.getD "" }
  else
    Except.ok params

/-- The `datasource` literal built by `createDataSource` before it is tested
and inserted: both timestamps are `new Date()` and the params are stored
encrypted. -/
def builtDatasource (env : Env) (organization name ty : String)
    (params : DataSourceParams) (settings : DataSourceSettings) (id : String) :
    DataSourceInterface :=
  { id := id, name := name, organization := organization, type := ty,
    settings := some settings,
    dateCreated := env.now, dateUpdated := env.now,
    params := env.encryptParams params }

/-- `id = id || uniqid("ds_")` in `createDataSource`: JavaScript `||` keeps
the supplied id only when it is truthy, so an absent id *and* a supplied
empty-string id both fall back to a fresh `uniqid("ds_")` identifier. -/
def resolveId (env : Env) (idArg : Option String) : String :=
  match idArg with
  | none => "ds_" ++ env.freshSuffix
  | some s => if s = "" then "ds_" ++ env.freshSuffix else s

/-- `createDataSource`: rejected in file-config mode; otherwise the id is the
supplied one when truthy, else `uniqid("ds_")`; the `google_analytics` token
exchange runs, the connection is tested, and the document is inserted (the
unique index rejecting a duplicate `(id, organization)` key); the created
document is returned through `toInterface`. -/
def createDataSource (env : Env) (st : Store) (organization name ty : String)
    (params : DataSourceParams) (settings : DataSourceSettings)
    (idArg : Option String) :
    Except String DataSourceInterface × Store :=
  if env.usingFileConfig then
    (Except.error "Cannot add. Data sources managed by config.yml", st)
  else
    let id := resolveId env idArg
    match oauthParams env ty params with
    | Except.error e => (Except.error e, st)
    | Except.ok params2 =>
      let datasource := builtDatasource env organization name ty params2 settings id
      match env.testDataSourceConnection datasource with
      | Except.error e => (Except.error e, st)
      | Except.ok _ =>
        if List.any st (matchesKey datasource.id datasource.organization) then
          (Except.error "E11000 duplicate key error", st)
        else
          match toInterface datasource with
          | Except.error e => (Except.error e, st ++ [datasource])
          | Except.ok out => (Except.ok out, st ++ [datasource])

/-- `Partial<DataSourceInterface>`: each field possibly named by the update. -/
structure DataSourceUpdates where
  id : Option String
  name : Option String
  organization : Option String
  type : Option String
  settings : Option DataSourceSettings
  dateCreated : Option Nat
  dateUpdated : Option Nat
  params : Option String
deriving DecidableEq, Repr

/-- The effect of `$set: updates` on one document: every field named in the
update takes its new value, the rest keep theirs. -/
def applyUpdates (u : DataSourceUpdates) (d : DataSourceInterface) :
    DataSourceInterface :=
  { id := u.id.getD d.id,
    name := u.name.getD d.name,
    organization := u.organization.getD d.organization,
    type := u.type.getD d.type,
    settings := match u.settings with | some s => some s | none => d.settings,
    dateCreated := u.dateCreated.getD d.dateCreated,
    dateUpdated := u.dateUpdated.getD d.dateUpdated,
    params := u.params.getD d.params }

/-- Replace the first element matching `p` by its image under `f`. -/
def replaceFirst (p : DataSourceInterface → Bool)
    (f : DataSourceInterface → DataSourceInterface) :
    List DataSourceInterface → List DataSourceInterface
  | [] => []
  | d :: rest => if p d then f d :: rest else d :: replaceFirst p f rest

/-- `updateDataSource`: rejected in file-config mode; otherwise
`updateOne({id, organization}, {$set: updates})`: the first matching document
(if any) is merged with the updates, the unique index rejecting the write when
the merged `(id, organization)` key collides with another document. -/
def updateDataSource (env : Env) (st : Store) (id organization : String)
    (u : DataSourceUpdates) : Except String Unit × Store :=
  if env.usingFileConfig then
    (Except.error "Cannot update. Data sources managed by config.yml", st)
  else
    match List.find? (matchesKey id organization) st with
    | none => (Except.ok (), st)
    | some d =>
      let d2 := applyUpdates u d
      if List.any (deleteFirst (matchesKey id organization) st)
          (matchesKey d2.id d2.organization) then
        (Except.error "E11000 duplicate key error", st)
      else
        (Except.ok (), replaceFirst (matchesKey id organization) (fun _ => d2) st)

/-- One mutation call against the store: any `createDataSource`,
`updateDataSource` or `deleteDatasourceById` call, under any environment,
taking the store to the store it leaves behind. -/
inductive Step : Store → Store → Prop where
  | create (env : Env) (st : Store) (organization name ty : String)
      (params : DataSourceParams) (settings : DataSourceSettings)
      (idArg : Option String) :
      Step st (createDataSource env st organization name ty params settings idArg).2
  | update (env : Env) (st : Store) (id organization : String)
      (u : DataSourceUpdates) :
      Step st (updateDataSource env st id organization u).2
  | delete (env : Env) (st : Store) (id organization : String) :
      Step st (deleteDatasourceById env st id organization).2

/-- Stores reachable from the empty collection by mutation calls. -/
inductive Reachable : Store → Prop where
  | empty : Reachable []
  | step {st st' : Store} : Reachable st → Step st st' → Reachable st'

/-- No two records share their `(id, organization)` key. -/
def UniqueKeys (st : Store) : Prop :=
  List.Pairwise (fun a b => keyOf a ≠ keyOf b) st

/-- The record built by a successful non-`google_analytics` `createDataSource`
call: the supplied id when truthy (present and non-empty), otherwise a fresh
`uniqid("ds_")` identifier. -/
def createdDoc (env : Env) (organization name ty : String)
    (params : DataSourceParams) (settings : DataSourceSettings)
    (idArg : Option String) : DataSourceInterface :=
  builtDatasource env organization name ty params settings (resolveId env idArg)

/-- The observable outcome of one `StringArrayField` keydown or blur event:
the argument `onChange` was called with (if it was called), the pending input
text afterwards, and whether the default action was prevented. -/
structure KeyDownOutcome where
  onChangeArg : Option (List String)
  inputValue : String
  defaultPrevented : Bool
deriving DecidableEq, Repr

/-- The `onKeyDown` handler of `StringArrayField`: with an empty pending input
it returns at once; otherwise `Enter`, `Tab`, space and comma commit the
pending token (append it to the list, clear the input, prevent default), and
any other key falls through the `switch` unchanged. -/
def stringArrayFieldKeyDown (value : List String) (inputValue key : String) :
    KeyDownOutcome :=
  if inputValue = "" then
    { onChangeArg := none, inputValue := inputValue, defaultPrevented := false }
  else if key = "Enter" ∨ key = "Tab" ∨ key = " " ∨ key = "," then
    { onChangeArg := some (value ++ [inputValue]), inputValue := "",
      defaultPrevented := true }
  else
    { onChangeArg := none, inputValue := inputValue, defaultPrevented := false }

/-- The `onBlur` handler of `StringArrayField`: a non-empty pending input is
committed, an empty one is left alone. -/
def stringArrayFieldBlur (value : List String) (inputValue : String) :
    KeyDownOutcome :=
  if inputValue = "" then
    { onChangeArg := none, inputValue := inputValue, defaultPrevented := false }
  else
    { onChangeArg := some (value ++ [inputValue]), inputValue := "",
      defaultPrevented := false }

/-! Concrete fixtures used by witnesses and counterexamples. -/

/-- A settings bundle with every optional field absent. -/
def sEmpty : DataSourceSettings :=
  { ids := none, queries := none, experimentDimensions := none }

/-- `sEmpty` after the read-time upgrade: the default ids are synthesized. -/
def sUpgraded : DataSourceSettings :=
  { ids := some defaultIds, queries := none, experimentDimensions := none }

/-- Sample connection parameters. -/
def p0 : DataSourceParams := { refreshToken := "r0", blob := "b0" }

/-- A database-backed environment whose external services all succeed. -/
def env0 : Env :=
  { usingFileConfig := false,
    configDatasources := fun _ => [],
    encryptParams := fun p => "encrypted:" ++ p.blob ++ ":" ++ p.refreshToken,
    testDataSourceConnection := fun _ => Except.ok (),
    getToken := fun _ => Except.ok (some "newtok"),
    freshSuffix := "3k9x",
    now := 1700000000 }

/-- A static-configuration data source of organization `acme`. -/
def cfgDs1 : DataSourceInterface :=
  { id := "c1", name := "warehouse", organization := "acme", type := "postgres",
    settings := some sUpgraded, dateCreated := 0, dateUpdated := 0,
    params := "cfg" }

/-- A second static-configuration data source of organization `acme`. -/
def cfgDs2 : DataSourceInterface :=
  { cfgDs1 with id := "c2", name := "events" }

/-- A file-config-mode environment with two static data sources for `acme`. -/
def envCfg : Env :=
  { env0 with
    usingFileConfig := true,
    configDatasources := fun o => if o = "acme" then [cfgDs1, cfgDs2] else [] }

/-- A database-backed environment whose connection test always throws. -/
def envFail : Env :=
  { env0 with
    testDataSourceConnection := fun _ => Except.error "connection failed" }

/-- A stored record with empty settings. -/
def d0 : DataSourceInterface :=
  { id := "ds_0", name := "main", organization := "acme", type := "postgres",
    settings := some sEmpty, dateCreated := 5, dateUpdated := 6,
    params := "enc0" }

/-- `d0` after the read-time upgrade. -/
def d0up : DataSourceInterface := { d0 with settings := some sUpgraded }

/-- A legacy stored record whose `settings` field is absent. -/
def dNoSettings : DataSourceInterface := { d0 with settings := none }

/-- A settings bundle whose legacy experiments query is present but empty. -/
def c4Settings : DataSourceSettings :=
  { ids := some defaultIds,
    queries := some { experimentsQuery := some "", exposure := none },
    experimentDimensions := none }

/-- A record whose `experimentsQuery` is present (but empty) and whose
`exposure` is absent. -/
def c4Input : DataSourceInterface := { d0 with settings := some c4Settings }

/-- A legacy settings bundle: absent ids, a non-empty experiments query, no
exposure block, and one experiment dimension. -/
def sLegacy : DataSourceSettings :=
  { ids := none,
    queries := some { experimentsQuery := some "SELECT 1", exposure := none },
    experimentDimensions := some ["country"] }

/-- A stored record carrying `sLegacy`. -/
def dLegacy : DataSourceInterface := { d0 with settings := some sLegacy }

/-- First record of the update counterexample store, key `("a", "acme")`. -/
def c8d1 : DataSourceInterface := { d0 with id := "a", name := "one" }

/-- Second record of the update counterexample store, key `("b", "acme")`. -/
def c8d2 : DataSourceInterface := { d0 with id := "b", name := "two" }

/-- An update object that only renames the record's `id` to `"a"`. -/
def c8collide : DataSourceUpdates :=
  { id := some "a", name := none, organization := none, type := none,
    settings := none, dateCreated := none, dateUpdated := none, params := none }

/-- An update object that only renames the record's `name`. -/
def c8rename : DataSourceUpdates :=
  { id := none, name := some "renamed", organization := none, type := none,
    settings := none, dateCreated := none, dateUpdated := none, params := none }

/-! Helper lemmas. -/

/-- The head of a filtered list is its first element satisfying the filter. -/
theorem head_of_filter_eq_find {α : Type} (p : α → Bool) (l : List α) :
    (List.filter p l).head? = List.find? p l := by
  induction l with
  | nil => rfl
  | cons a t ih =>
    by_cases h : p a
    · simp [List.filter_cons, List.find?_cons, h]
    · simp only [Bool.not_eq_true] at h
      simp [List.filter_cons, List.find?_cons, h, ih]

/-- `matchesKey` is exactly equality of the compound key. -/
theorem matchesKey_iff {id organization : String} {d : DataSourceInterface} :
    matchesKey id organization d = true ↔ keyOf d = (id, organization) := by
  simp [matchesKey, keyOf, Prod.ext_iff, Bool.and_eq_true]

/-- C1: with the process-wide file-config flag set, `createDataSource`,
`updateDataSource` and `deleteDatasourceById` each fail at once with their
descriptive error message and leave the stored collection unchanged — the
result is the same for every store, so no document-store access happens. -/
theorem fileConfig_mutations_rejected (env : Env)
    (h : env.usingFileConfig = true) :
    ∀ (st : Store) (organization name ty : String) (params : DataSourceParams)
      (settings : DataSourceSettings) (idArg : Option String)
      (id org2 : String) (u : DataSourceUpdates),
      createDataSource env st organization name ty params settings idArg
        = (Except.error "Cannot add. Data sources managed by config.yml", st) ∧
      updateDataSource env st id org2 u
        = (Except.error "Cannot update. Data sources managed by config.yml", st) ∧
      deleteDatasourceById env st id org2
        = (Except.error "Cannot delete. Data sources managed by config.yml", st) := by
  intro st organization name ty params settings idArg id org2 u
  refine ⟨?_, ?_, ?_⟩ <;>
    simp [createDataSource, updateDataSource, deleteDatasourceById, h]

/-- Witness for C1 at a concrete file-config environment. -/
theorem fileConfig_mutations_rejected_witness :
    envCfg.usingFileConfig = true ∧
    createDataSource envCfg [] "acme" "nm" "postgres" p0 sEmpty none
      = (Except.error "Cannot add. Data sources managed by config.yml", []) ∧
    updateDataSource envCfg [] "c1" "acme" c8rename
      = (Except.error "Cannot update. Data sources managed by config.yml", []) ∧
    deleteDatasourceById envCfg [] "c1" "acme"
      = (Except.error "Cannot delete. Data sources managed by config.yml", []) :=
  ⟨rfl,
   fileConfig_mutations_rejected envCfg rfl [] "acme" "nm" "postgres" p0 sEmpty
     none "c1" "acme" c8rename⟩

/-- C5: with the file-config flag set, `getDataSourcesByOrganization` returns
exactly the static configuration's list for the organization (for every store,
so the document store is not consulted), and `getDataSourceById` returns the
first static data source of the organization whose id matches, or null
(`none`) when none matches. -/
theorem fileConfig_reads_from_config (env : Env)
    (h : env.usingFileConfig = true) (st : Store) (organization id : String) :
    getDataSourcesByOrganization env st organization
      = Except.ok (env.configDatasources organization) ∧
    getDataSourceById env st id organization
      = Except.ok (List.find? (fun d => d.id == id)
          (env.configDatasources organization)) := by
  constructor
  · simp [getDataSourcesByOrganization, h]
  · simp [getDataSourceById, h, head_of_filter_eq_find]

/-- Witness for C5 at the concrete file-config environment: a matching id,
a missing id, and the organization list, evaluated on a nonempty store the
reads ignore. -/
theorem fileConfig_reads_from_config_witness :
    getDataSourcesByOrganization envCfg [d0] "acme"
      = Except.ok [cfgDs1, cfgDs2] ∧
    getDataSourceById envCfg [d0] "c2" "acme" = Except.ok (some cfgDs2) ∧
    getDataSourceById envCfg [d0] "zzz" "acme" = Except.ok none :=
  ⟨((fileConfig_reads_from_config envCfg rfl [d0] "acme" "c2").1).trans rfl,
   ((fileConfig_reads_from_config envCfg rfl [d0] "acme" "c2").2).trans rfl,
   ((fileConfig_reads_from_config envCfg rfl [d0] "acme" "zzz").2).trans rfl⟩

/-- C9: in `StringArrayField`, with a non-empty pending input, comma (and
Enter, Tab, space) commits the token: `onChange` receives the old list with
the pending input appended as new last element and the input is cleared; with
an empty pending input these keys change nothing and `onChange` is not
called. -/
theorem stringArrayField_commit (value : List String) (inputValue key : String) :
    (inputValue ≠ "" → (key = "Enter" ∨ key = "Tab" ∨ key = " " ∨ key = ",") →
      stringArrayFieldKeyDown value inputValue key
        = { onChangeArg := some (value ++ [inputValue]), inputValue := "",
            defaultPrevented := true }) ∧
    (stringArrayFieldKeyDown value "" key
      = { onChangeArg := none, inputValue := "", defaultPrevented := false }) := by
  constructor
  · intro hne hkey
    simp [stringArrayFieldKeyDown, hne, hkey]
  · simp [stringArrayFieldKeyDown]

/-- Witness for C9: committing `"tag2"` by comma onto `["tag1"]`, and a comma
with empty pending input. -/
theorem stringArrayField_commit_witness :
    stringArrayFieldKeyDown ["tag1"] "tag2" ","
      = { onChangeArg := some (["tag1"] ++ ["tag2"]), inputValue := "",
          defaultPrevented := true } ∧
    stringArrayFieldKeyDown ["tag1"] "" ","
      = { onChangeArg := none, inputValue := "", defaultPrevented := false } :=
  ⟨(stringArrayField_commit ["tag1"] "tag2" ",").1 (by decide) (Or.inr (Or.inr (Or.inr rfl))),
   (stringArrayField_commit ["tag1"] "" ",").2⟩

/-- After the `ids` branch the `ids` field is always present. -/
theorem upgradeIds_ids_isSome (s : DataSourceSettings) :
    (upgradeIds s).ids.isSome := by
  cases h : s.ids <;> simp [upgradeIds, h]

/-- The `ids` branch is a no-op when `ids` is already present. -/
theorem upgradeIds_of_isSome {s : DataSourceSettings} (h : s.ids.isSome) :
    upgradeIds s = s := by
  cases hs : s.ids with
  | none => rw [hs] at h; simp at h
  | some l => simp [upgradeIds, hs]

/-- The `ids` branch touches no other field. -/
theorem upgradeIds_queries (s : DataSourceSettings) :
    (upgradeIds s).queries = s.queries ∧
    (upgradeIds s).experimentDimensions = s.experimentDimensions := by
  cases h : s.ids <;> simp [upgradeIds, h]

/-- The `exposure` branch touches neither `ids` nor `experimentDimensions`. -/
theorem upgradeExposure_ids (s : DataSourceSettings) :
    (upgradeExposure s).ids = s.ids ∧
    (upgradeExposure s).experimentDimensions = s.experimentDimensions := by
  cases hq : s.queries with
  | none => simp [upgradeExposure, hq]
  | some q =>
    cases he : q.experimentsQuery with
    | none => simp [upgradeExposure, hq, he]
    | some eq =>
      by_cases heq : eq = ""
      · simp [upgradeExposure, hq, he, heq]
      · cases hx : q.exposure with
        | some e => simp [upgradeExposure, hq, he, heq, hx]
        | none => simp [upgradeExposure, hq, he, heq, hx]

/-- The `exposure` branch is idempotent. -/
theorem upgradeExposure_idem (s : DataSourceSettings) :
    upgradeExposure (upgradeExposure s) = upgradeExposure s := by
  cases hq : s.queries with
  | none => simp [upgradeExposure, hq]
  | some q =>
    cases he : q.experimentsQuery with
    | none => simp [upgradeExposure, hq, he]
    | some eq =>
      by_cases heq : eq = ""
      · simp [upgradeExposure, hq, he, heq]
      · cases hx : q.exposure with
        | some e => simp [upgradeExposure, hq, he, heq, hx]
        | none => simp [upgradeExposure, hq, he, heq, hx]

/-- The settings upgrade is idempotent. -/
theorem upgradeSettings_idem (s : DataSourceSettings) :
    upgradeSettings (upgradeSettings s) = upgradeSettings s := by
  have h1 : (upgradeExposure (upgradeIds s)).ids.isSome := by
    rw [(upgradeExposure_ids (upgradeIds s)).1]
    exact upgradeIds_ids_isSome s
  calc upgradeSettings (upgradeSettings s)
      = upgradeExposure (upgradeIds (upgradeExposure (upgradeIds s))) := rfl
    _ = upgradeExposure (upgradeExposure (upgradeIds s)) := by
        rw [upgradeIds_of_isSome h1]
    _ = upgradeExposure (upgradeIds s) := upgradeExposure_idem _
    _ = upgradeSettings s := rfl

/-- C3: `upgradeDatasourceObject` is idempotent — whenever it is defined on a
record, applying it again to its result returns that result unchanged. -/
theorem upgradeDatasourceObject_idempotent (d d2 : DataSourceInterface)
    (h : upgradeDatasourceObject d = Except.ok d2) :
    upgradeDatasourceObject d2 = Except.ok d2 := by
  cases hs : d.settings with
  | none => rw [upgradeDatasourceObject, hs] at h; exact absurd h (by simp)
  | some s =>
    rw [upgradeDatasourceObject, hs] at h
    have hd2 : d2 = { d with settings := some (upgradeSettings s) } := by
      exact (Except.ok.injEq _ _).mp h.symm
    subst hd2
    simp [upgradeDatasourceObject, upgradeSettings_idem]

/-- Witness for C3: the upgrade of a record with empty settings is a fixed
point of the upgrade. -/
theorem upgradeDatasourceObject_idempotent_witness :
    upgradeDatasourceObject d0up = Except.ok d0up :=
  upgradeDatasourceObject_idempotent d0 d0up rfl

/-- Counterexample to C4 as stated: in `c4Input` the nested
`settings.queries.experimentsQuery` is present (the empty string) and
`settings.queries.exposure` is absent, yet `upgradeDatasourceObject` leaves
the record unchanged — no `exposure` block is synthesized, because the code
tests JavaScript truthiness (`settings?.queries?.experimentsQuery &&`), not
presence, and an empty string is falsy. -/
theorem upgrade_empty_experimentsQuery_cex :
    c4Input.settings = some c4Settings ∧
    c4Settings.queries = some { experimentsQuery := some "", exposure := none } ∧
    upgradeDatasourceObject c4Input = Except.ok c4Input := by
  refine ⟨rfl, rfl, ?_⟩
  have : upgradeSettings c4Settings = c4Settings := by decide
  simp [upgradeDatasourceObject, c4Input, this]

/-- C4 (amended): for a record with defined settings the upgrade succeeds,
replacing the settings by `upgradeSettings` and touching nothing else; absent
`ids` becomes the two default identifier entries and present `ids` is kept;
when `queries.experimentsQuery` is present and non-empty while
`queries.exposure` is absent, `exposure` is set to a main block whose query is
the experiments query, whose dimensions are `experimentDimensions` (or `[]`),
and whose ids are `["user_id", "anonymous_id"]`; in every other case `queries`
is left as it is. -/
theorem upgradeDatasourceObject_synthesizes (d : DataSourceInterface)
    (s : DataSourceSettings) (h : d.settings = some s) :
    upgradeDatasourceObject d
      = Except.ok { d with settings := some (upgradeSettings s) } ∧
    (s.ids = none → (upgradeSettings s).ids = some defaultIds) ∧
    (∀ l, s.ids = some l → (upgradeSettings s).ids = some l) ∧
    (∀ q eq, s.queries = some q → q.experimentsQuery = some eq → eq ≠ "" →
      q.exposure = none →
      (upgradeSettings s).queries = some { q with exposure := some (mkExposureQueries (s.experimentDimensions.getD []) eq) }) ∧
    (∀ q e, s.queries = some q → q.exposure = some e →
      (upgradeSettings s).queries = s.queries) ∧
    (∀ q, s.queries = some q → q.experimentsQuery = none →
      (upgradeSettings s).queries = s.queries) ∧
    (∀ q, s.queries = some q → q.experimentsQuery = some "" →
      (upgradeSettings s).queries = s.queries) ∧
    (s.queries = none → (upgradeSettings s).queries = none) ∧
    (upgradeSettings s).experimentDimensions = s.experimentDimensions := by
  have hq : (upgradeIds s).queries = s.queries := (upgradeIds_queries s).1
  have hdim : (upgradeIds s).experimentDimensions = s.experimentDimensions :=
    (upgradeIds_queries s).2
  refine ⟨by simp [upgradeDatasourceObject, h], ?_, ?_, ?_, ?_, ?_, ?_, ?_, ?_⟩
  · intro hids
    rw [upgradeSettings, (upgradeExposure_ids _).1]
    simp [upgradeIds, hids]
  · intro l hids
    rw [upgradeSettings, (upgradeExposure_ids _).1]
    simp [upgradeIds, hids]
  · intro q eq hsq hexp hne hnoexp
    have htq : (upgradeIds s).queries = some q := hq.trans hsq
    rw [upgradeSettings]
    simp [upgradeExposure, htq, hexp, hne, hnoexp, hdim]
  · intro q e hsq hexp
    have htq : (upgradeIds s).queries = some q := hq.trans hsq
    rw [upgradeSettings]
    cases he : q.experimentsQuery with
    | none => simp [upgradeExposure, htq, he, hsq]
    | some eq =>
      by_cases heq : eq = ""
      · simp [upgradeExposure, htq, he, heq, hsq]
      · simp [upgradeExposure, htq, he, heq, hexp, hsq]
  · intro q hsq hexp
    have htq : (upgradeIds s).queries = some q := hq.trans hsq
    rw [upgradeSettings]
    simp [upgradeExposure, htq, hexp, hsq]
  · intro q hsq hexp
    have htq : (upgradeIds s).queries = some q := hq.trans hsq
    rw [upgradeSettings]
    simp [upgradeExposure, htq, hexp, hsq]
  · intro hsq
    have htq : (upgradeIds s).queries = none := hq.trans hsq
    rw [upgradeSettings]
    simp [upgradeExposure, htq]
  · rw [upgradeSettings, (upgradeExposure_ids _).2, hdim]

/-- Witness for C4 (amended): the defaults are synthesized for `d0` (absent
`ids`) and the exposure block is derived for `dLegacy` (non-empty experiments
query, absent exposure). -/
theorem upgradeDatasourceObject_synthesizes_witness :
    upgradeDatasourceObject d0 = Except.ok d0up ∧
    (upgradeSettings sEmpty).ids = some defaultIds ∧
    (upgradeSettings sLegacy).queries
      = some { experimentsQuery := some "SELECT 1",
               exposure := some (mkExposureQueries ["country"] "SELECT 1") } := by
  have h1 := upgradeDatasourceObject_synthesizes d0 sEmpty rfl
  have h2 := upgradeDatasourceObject_synthesizes dLegacy sLegacy rfl
  exact ⟨h1.1.trans rfl, h1.2.1 rfl,
    (h2.2.2.2.1 { experimentsQuery := some "SELECT 1", exposure := none }
      "SELECT 1" rfl rfl (by decide) rfl).trans rfl⟩

/-- C10: `upgradeDatasourceObject` is total exactly on records with defined
settings: with `settings` present it succeeds, with `settings` absent
(`null`/`undefined`) the guard `!settings?.ids` passes and the assignment
`settings.ids = ...` faults with a `TypeError`; consequently a database-mode
read (`getDataSourceById`, or `getDataSourcesByOrganization` over such a
record) crashes with that error. -/
theorem upgrade_requires_settings :
    (∀ d : DataSourceInterface, d.settings = none →
      upgradeDatasourceObject d
        = Except.error "TypeError: Cannot set properties of undefined (setting ids)") ∧
    (∀ (d : DataSourceInterface) (s : DataSourceSettings), d.settings = some s →
      upgradeDatasourceObject d
        = Except.ok { d with settings := some (upgradeSettings s) }) ∧
    (∀ (env : Env) (st : Store) (id organization : String)
        (d : DataSourceInterface),
      env.usingFileConfig = false →
      List.find? (matchesKey id organization) st = some d →
      d.settings = none →
      getDataSourceById env st id organization
        = Except.error "TypeError: Cannot set properties of undefined (setting ids)") ∧
    (∀ (env : Env) (d : DataSourceInterface),
      env.usingFileConfig = false → d.settings = none →
      getDataSourcesByOrganization env [d] d.organization
        = Except.error "TypeError: Cannot set properties of undefined (setting ids)") := by
  refine ⟨?_, ?_, ?_, ?_⟩
  · intro d hd
    simp [upgradeDatasourceObject, hd]
  · intro d s hd
    simp [upgradeDatasourceObject, hd]
  · intro env st id organization d hfc hfind hd
    simp [getDataSourceById, hfc, hfind, toInterface, upgradeDatasourceObject, hd,
      Except.map]
  · intro env d hfc hd
    simp [getDataSourcesByOrganization, hfc, List.filter, toInterface,
      upgradeDatasourceObject, hd, List.mapM, List.mapM.loop]

/-- Witness for C10: the upgrade and a `getDataSourceById` read both fault on
the concrete settings-less record. -/
theorem upgrade_requires_settings_witness :
    upgradeDatasourceObject dNoSettings
      = Except.error "TypeError: Cannot set properties of undefined (setting ids)" ∧
    getDataSourceById env0 [dNoSettings] "ds_0" "acme"
      = Except.error "TypeError: Cannot set properties of undefined (setting ids)" :=
  ⟨upgrade_requires_settings.1 dNoSettings rfl,
   upgrade_requires_settings.2.2.1 env0 [dNoSettings] "ds_0" "acme" dNoSettings
     rfl rfl rfl⟩

/-- C6: `createDataSource` runs `testDataSourceConnection` on the record it
built before inserting anything: whenever the connection test throws (and the
earlier OAuth step did not), the error is propagated and the stored collection
is unchanged. -/
theorem createDataSource_tests_before_insert (env : Env) (st : Store)
    (organization name ty : String) (params params2 : DataSourceParams)
    (settings : DataSourceSettings) (idArg : Option String) (e : String)
    (hfc : env.usingFileConfig = false)
    (hoauth : oauthParams env ty params = Except.ok params2)
    (htest : env.testDataSourceConnection
        (builtDatasource env organization name ty params2 settings
          (resolveId env idArg)) = Except.error e) :
    createDataSource env st organization name ty params settings idArg
      = (Except.error e, st) := by
  simp [createDataSource, hfc, hoauth, htest]

/-- Witness for C6: with an always-failing connection test, creation on the
empty store propagates the test's error and leaves the store empty. -/
theorem createDataSource_tests_before_insert_witness :
    createDataSource envFail [] "acme" "nm" "postgres" p0 sEmpty none
      = (Except.error "connection failed", []) :=
  createDataSource_tests_before_insert envFail [] "acme" "nm" "postgres" p0 p0
    sEmpty none "connection failed" rfl rfl rfl

/-- Counterexample to C7 as stated: an id *is* supplied — the empty string —
yet the persisted record's id is not the supplied one: `id || uniqid("ds_")`
treats the falsy empty string like an absent id and stores a fresh
`"ds_"`-prefixed identifier instead. -/
theorem createDataSource_empty_id_cex :
    (createDataSource env0 [] "acme" "nm" "postgres" p0 sEmpty (some "")).2
      = [createdDoc env0 "acme" "nm" "postgres" p0 sEmpty (some "")] ∧
    (createdDoc env0 "acme" "nm" "postgres" p0 sEmpty (some "")).id
      = "ds_" ++ env0.freshSuffix ∧
    (createdDoc env0 "acme" "nm" "postgres" p0 sEmpty (some "")).id ≠ "" :=
  ⟨rfl, rfl, by decide⟩

/-- C7 (amended): a successful database-mode, non-`google_analytics`
`createDataSource` call appends exactly one record to the store: the built
document, whose `params` field is `encryptParams(params)` (never the clear
parameters), whose `organization`, `name`, `type` and `settings` are the
supplied ones, whose two timestamps are set to the call time, and whose id is
the supplied id when a non-empty one is given, and otherwise (no id, or the
falsy empty string) a freshly generated identifier with the `"ds_"`
prefix. -/
theorem createDataSource_persists_encrypted (env : Env) (st st' : Store)
    (organization name ty : String) (params : DataSourceParams)
    (settings : DataSourceSettings) (idArg : Option String)
    (out : DataSourceInterface)
    (hfc : env.usingFileConfig = false) (hty : ty ≠ "google_analytics")
    (hok : createDataSource env st organization name ty params settings idArg
      = (Except.ok out, st')) :
    st' = st ++ [createdDoc env organization name ty params settings idArg] ∧
    (createdDoc env organization name ty params settings idArg).params
      = env.encryptParams params ∧
    (createdDoc env organization name ty params settings idArg).organization
      = organization ∧
    (createdDoc env organization name ty params settings idArg).name = name ∧
    (createdDoc env organization name ty params settings idArg).type = ty ∧
    (createdDoc env organization name ty params settings idArg).settings
      = some settings ∧
    (createdDoc env organization name ty params settings idArg).dateCreated
      = env.now ∧
    (createdDoc env organization name ty params settings idArg).dateUpdated
      = env.now ∧
    (∀ i, idArg = some i → i ≠ "" →
      (createdDoc env organization name ty params settings idArg).id = i) ∧
    (idArg = none ∨ idArg = some "" →
      (createdDoc env organization name ty params settings idArg).id
        = "ds_" ++ env.freshSuffix) := by
  have hoauth : oauthParams env ty params = Except.ok params := by
    simp [oauthParams, hty]
  refine ⟨?_, rfl, rfl, rfl, rfl, rfl, rfl, rfl,
    fun i hi hne => by simp [createdDoc, builtDatasource, resolveId, hi, hne],
    fun hi => by
      rcases hi with hi | hi <;> simp [createdDoc, builtDatasource, resolveId, hi]⟩
  simp only [createDataSource, hfc, Bool.false_eq_true, if_false, hoauth] at hok
  split at hok
  · have h1 := congrArg Prod.fst hok
    simp at h1
  · split at hok
    · have h1 := congrArg Prod.fst hok
      simp at h1
    · split at hok
      · have h1 := congrArg Prod.fst hok
        simp at h1
      · exact (congrArg Prod.snd hok).symm

/-- Witness for C7 (amended): a concrete successful creation with a supplied
non-empty id, and one with no id at all (which gets the fresh `"ds_"` one). -/
theorem createDataSource_persists_encrypted_witness :
    (createDataSource env0 [] "acme" "nm" "postgres" p0 sEmpty (some "ds_9")).2
      = [] ++ [createdDoc env0 "acme" "nm" "postgres" p0 sEmpty (some "ds_9")] ∧
    (createdDoc env0 "acme" "nm" "postgres" p0 sEmpty (some "ds_9")).params
      = env0.encryptParams p0 ∧
    (createdDoc env0 "acme" "nm" "postgres" p0 sEmpty (some "ds_9")).id
      = "ds_9" ∧
    (createdDoc env0 "acme" "nm" "postgres" p0 sEmpty none).id
      = "ds_" ++ env0.freshSuffix := by
  have h := createDataSource_persists_encrypted env0 []
    (createDataSource env0 [] "acme" "nm" "postgres" p0 sEmpty (some "ds_9")).2
    "acme" "nm" "postgres" p0 sEmpty (some "ds_9")
    { createdDoc env0 "acme" "nm" "postgres" p0 sEmpty (some "ds_9") with
      settings := some sUpgraded }
    rfl (by decide) rfl
  have h2 := createDataSource_persists_encrypted env0 []
    (createDataSource env0 [] "acme" "nm" "postgres" p0 sEmpty none).2
    "acme" "nm" "postgres" p0 sEmpty none
    { createdDoc env0 "acme" "nm" "postgres" p0 sEmpty none with
      settings := some sUpgraded }
    rfl (by decide) rfl
  exact ⟨h.1, h.2.1, h.2.2.2.2.2.2.2.2.1 "ds_9" rfl (by decide),
    h2.2.2.2.2.2.2.2.2.2 (Or.inl rfl)⟩

/-- `deleteOne` removes at most one document: its result is a sublist. -/
theorem deleteFirst_sublist (p : DataSourceInterface → Bool) :
    ∀ l : List DataSourceInterface, List.Sublist (deleteFirst p l) l := by
  intro l
  induction l with
  | nil => exact List.Sublist.refl _
  | cons a t ih =>
    by_cases hp : p a = true
    · simp only [deleteFirst, hp, if_true]
      exact List.Sublist.cons a (List.Sublist.refl t)
    · simp only [deleteFirst, hp, if_false]
      exact List.Sublist.cons₂ a ih

/-- Members of a constant `replaceFirst` are old members or the new value. -/
theorem mem_replaceFirst_const {p : DataSourceInterface → Bool}
    {d2 x : DataSourceInterface} :
    ∀ {l : List DataSourceInterface},
      x ∈ replaceFirst p (fun _ => d2) l → x ∈ l ∨ x = d2 := by
  intro l
  induction l with
  | nil => intro h; rw [replaceFirst] at h; exact Or.inl h
  | cons a t ih =>
    intro h
    by_cases hp : p a = true
    · rw [replaceFirst, if_pos hp] at h
      rcases List.mem_cons.mp h with h2 | h2
      · exact Or.inr h2
      · exact Or.inl (List.mem_cons_of_mem _ h2)
    · rw [replaceFirst, if_neg hp] at h
      rcases List.mem_cons.mp h with h2 | h2
      · exact Or.inl (h2 ▸ List.mem_cons_self _ _)
      · rcases ih h2 with h3 | h3
        · exact Or.inl (List.mem_cons_of_mem _ h3)
        · exact Or.inr h3

/-- Inserting a record whose key matches no stored record preserves key
uniqueness. -/
theorem uniqueKeys_append {st : Store} {ds : DataSourceInterface}
    (h : UniqueKeys st)
    (hno : List.any st (matchesKey ds.id ds.organization) = false) :
    UniqueKeys (st ++ [ds]) := by
  rw [UniqueKeys, List.pairwise_append]
  refine ⟨h, List.pairwise_singleton _ _, ?_⟩
  intro a ha b hb
  rw [List.mem_singleton] at hb
  subst hb
  rw [List.any_eq_false] at hno
  intro hcontra
  exact hno a ha (matchesKey_iff.mpr hcontra)

/-- Updating the first record matching a key, when the merged record's key
collides with no other stored record, preserves key uniqueness. -/
theorem uniqueKeys_replaceFirst (id organization : String)
    (d2 : DataSourceInterface) :
    ∀ l : Store, UniqueKeys l →
      List.any (deleteFirst (matchesKey id organization) l)
        (matchesKey d2.id d2.organization) = false →
      UniqueKeys (replaceFirst (matchesKey id organization) (fun _ => d2) l) := by
  intro l
  induction l with
  | nil => intro _ _; exact List.Pairwise.nil
  | cons a t ih =>
    intro h hcheck
    rw [UniqueKeys, List.pairwise_cons] at h
    obtain ⟨ha, ht⟩ := h
    by_cases hp : matchesKey id organization a = true
    · rw [replaceFirst, if_pos hp]
      rw [deleteFirst, if_pos hp, List.any_eq_false] at hcheck
      rw [UniqueKeys, List.pairwise_cons]
      refine ⟨?_, ht⟩
      intro b hb hcontra
      exact hcheck b hb (matchesKey_iff.mpr hcontra.symm)
    · rw [replaceFirst, if_neg hp]
      rw [deleteFirst, if_neg hp, List.any_cons, Bool.or_eq_false_iff] at hcheck
      rw [UniqueKeys, List.pairwise_cons]
      refine ⟨?_, ih ht hcheck.2⟩
      intro b hb
      rcases mem_replaceFirst_const hb with h2 | h2
      · exact ha b h2
      · intro hcontra
        rw [h2] at hcontra
        have h3 : matchesKey d2.id d2.organization a = true :=
          matchesKey_iff.mpr hcontra
        rw [hcheck.1] at h3
        exact Bool.false_ne_true h3

/-- The store left by `createDataSource` is either unchanged or the old store
with one freshly keyed record appended. -/
theorem create_store_shape (env : Env) (st : Store)
    (organization name ty : String) (params : DataSourceParams)
    (settings : DataSourceSettings) (idArg : Option String) :
    (createDataSource env st organization name ty params settings idArg).2 = st ∨
    ∃ ds, (createDataSource env st organization name ty params settings idArg).2
        = st ++ [ds] ∧
      List.any st (matchesKey ds.id ds.organization) = false := by
  simp only [createDataSource]
  split
  · exact Or.inl rfl
  · split
    · exact Or.inl rfl
    · split
      · exact Or.inl rfl
      · split
        · exact Or.inl rfl
        · next hdup =>
          split
          · exact Or.inr ⟨_, rfl, by simpa using hdup⟩
          · exact Or.inr ⟨_, rfl, by simpa using hdup⟩

/-- The store left by `updateDataSource` is either unchanged or has the first
record matching the key replaced by the merged record, whose key collides with
no other record. -/
theorem update_store_shape (env : Env) (st : Store) (id organization : String)
    (u : DataSourceUpdates) :
    (updateDataSource env st id organization u).2 = st ∨
    ∃ d, List.find? (matchesKey id organization) st = some d ∧
      (updateDataSource env st id organization u).2
        = replaceFirst (matchesKey id organization)
            (fun _ => applyUpdates u d) st ∧
      List.any (deleteFirst (matchesKey id organization) st)
        (matchesKey (applyUpdates u d).id (applyUpdates u d).organization)
        = false := by
  simp only [updateDataSource]
  split
  · exact Or.inl rfl
  · split
    · exact Or.inl rfl
    · next d hfind =>
      split
      · exact Or.inl rfl
      · next hdup => exact Or.inr ⟨d, hfind, rfl, by simpa using hdup⟩

/-- The store left by `deleteDatasourceById` is unchanged or has the first
matching record removed. -/
theorem delete_store_shape (env : Env) (st : Store) (id organization : String) :
    (deleteDatasourceById env st id organization).2 = st ∨
    (deleteDatasourceById env st id organization).2
      = deleteFirst (matchesKey id organization) st := by
  rw [deleteDatasourceById]
  split
  · exact Or.inl rfl
  · exact Or.inr rfl

/-- Every mutation call preserves key uniqueness. -/
theorem step_preserves_uniqueKeys {st st' : Store} (hs : Step st st')
    (h : UniqueKeys st) : UniqueKeys st' := by
  cases hs with
  | create env st organization name ty params settings idArg =>
    rcases create_store_shape env st organization name ty params settings idArg
      with h1 | ⟨ds, h1, h2⟩
    · rw [h1]; exact h
    · rw [h1]; exact uniqueKeys_append h h2
  | update env st id organization u =>
    rcases update_store_shape env st id organization u
      with h1 | ⟨d, _, h1, h2⟩
    · rw [h1]; exact h
    · rw [h1]; exact uniqueKeys_replaceFirst id organization _ st h h2
  | delete env st id organization =>
    rcases delete_store_shape env st id organization with h1 | h1
    · rw [h1]; exact h
    · rw [h1]; exact List.Pairwise.sublist (deleteFirst_sublist _ st) h

/-- C2: in every store reachable from the empty collection by any sequence of
`createDataSource`, `updateDataSource` and `deleteDatasourceById` calls, no
two stored records share the same `(identifier, organization)` pair — the
unique compound index is an invariant of the mutation operations. -/
theorem reachable_uniqueKeys (st : Store) (h : Reachable st) : UniqueKeys st := by
  induction h with
  | empty => exact List.Pairwise.nil
  | step _ hs ih => exact step_preserves_uniqueKeys hs ih

/-- Witness for C2: the store left by one concrete successful creation is
reachable and has unique keys. -/
theorem reachable_uniqueKeys_witness :
    UniqueKeys
      (createDataSource env0 [] "acme" "nm" "postgres" p0 sEmpty (some "i1")).2 :=
  reachable_uniqueKeys _
    (Reachable.step Reachable.empty
      (Step.create env0 [] "acme" "nm" "postgres" p0 sEmpty (some "i1")))

/-- `updateOne` does not change the number of stored documents. -/
theorem replaceFirst_length (p : DataSourceInterface → Bool)
    (f : DataSourceInterface → DataSourceInterface) :
    ∀ l : List DataSourceInterface, (replaceFirst p f l).length = l.length := by
  intro l
  induction l with
  | nil => rfl
  | cons a t ih => by_cases hp : p a = true <;> simp [replaceFirst, hp, ih]

/-- A position holding a non-matching record is untouched by `replaceFirst`. -/
theorem replaceFirst_get_nomatch (p : DataSourceInterface → Bool)
    (f : DataSourceInterface → DataSourceInterface) :
    ∀ (l : List DataSourceInterface) (j : Nat) (dj : DataSourceInterface),
      l.get? j = some dj → p dj = false →
      (replaceFirst p f l).get? j = some dj := by
  intro l
  induction l with
  | nil => intro j dj h _; simp at h
  | cons a t ih =>
    intro j dj h hp
    cases j with
    | zero =>
      have ha : a = dj := by simpa using h
      have hpa : p a = false := ha ▸ hp
      rw [replaceFirst, if_neg (by simp [hpa])]
      simpa using ha
    | succ j =>
      rw [List.get?_cons_succ] at h
      by_cases hpa : p a = true
      · rw [replaceFirst, if_pos hpa, List.get?_cons_succ]
        exact h
      · rw [replaceFirst, if_neg hpa, List.get?_cons_succ]
        exact ih j dj h hp

/-- In a store with unique keys, a position holding a record matching the
searched key is exactly the position `updateOne` rewrites to the merged
record. -/
theorem replaceFirst_get_match (id organization : String)
    (u : DataSourceUpdates) :
    ∀ (l : Store) (d : DataSourceInterface), UniqueKeys l →
      List.find? (matchesKey id organization) l = some d →
      ∀ (j : Nat) (dj : DataSourceInterface), l.get? j = some dj →
        matchesKey id organization dj = true →
        (replaceFirst (matchesKey id organization)
            (fun _ => applyUpdates u d) l).get? j
          = some (applyUpdates u dj) := by
  intro l
  induction l with
  | nil => intro d _ hfind; simp at hfind
  | cons a t ih =>
    intro d huniq hfind j dj hj hmatch
    rw [UniqueKeys, List.pairwise_cons] at huniq
    obtain ⟨ha, ht⟩ := huniq
    by_cases hpa : matchesKey id organization a = true
    · rw [List.find?_cons_of_pos _ hpa] at hfind
      have had : a = d := Option.some.inj hfind
      cases j with
      | zero =>
        have haj : a = dj := by simpa using hj
        rw [replaceFirst, if_pos hpa, List.get?_cons_zero, ← had, haj]
      | succ j =>
        rw [List.get?_cons_succ] at hj
        exfalso
        have k1 : keyOf a = (id, organization) := matchesKey_iff.mp hpa
        have k2 : keyOf dj = (id, organization) := matchesKey_iff.mp hmatch
        exact ha dj (List.get?_mem hj) (k1.trans k2.symm)
    · rw [List.find?_cons_of_neg _ hpa] at hfind
      cases j with
      | zero =>
        have haj : a = dj := by simpa using hj
        exact absurd (haj ▸ hmatch) hpa
      | succ j =>
        rw [List.get?_cons_succ] at hj
        rw [replaceFirst, if_neg hpa, List.get?_cons_succ]
        exact ih d ht hfind j dj hj hmatch

/-- Counterexample to C8 as stated: the store holds records keyed
`("a", "acme")` and `("b", "acme")`, and the update named `id := "a"` targets
`("b", "acme")`; the unique compound index rejects the write with a
duplicate-key error, so the record's `id` does not take the new value and the
store is unchanged. -/
theorem updateDataSource_collision_cex :
    c8collide.id = some "a" ∧
    matchesKey "b" "acme" c8d2 = true ∧
    updateDataSource env0 [c8d1, c8d2] "b" "acme" c8collide
      = (Except.error "E11000 duplicate key error", [c8d1, c8d2]) :=
  ⟨rfl, rfl, rfl⟩

/-- C8 (amended): a database-mode `updateDataSource` call on a store with
unique keys that the document store accepts (no duplicate-key rejection, i.e.
the call returns without error) performs a partial field merge: the store
keeps its length, every stored record matching `(id, organization)` is
replaced in place by its merge with the updates (fields named in the updates
take their new values, the rest are kept, per `applyUpdates`), and every
record with a different `(id, organization)` pair is unchanged. -/
theorem updateDataSource_partial_merge (env : Env) (st st' : Store)
    (id organization : String) (u : DataSourceUpdates)
    (hfc : env.usingFileConfig = false)
    (huniq : UniqueKeys st)
    (hok : updateDataSource env st id organization u = (Except.ok (), st')) :
    st'.length = st.length ∧
    (∀ (j : Nat) (dj : DataSourceInterface), st.get? j = some dj →
      dj.id = id → dj.organization = organization →
      st'.get? j = some (applyUpdates u dj)) ∧
    (∀ (j : Nat) (dj : DataSourceInterface), st.get? j = some dj →
      ¬(dj.id = id ∧ dj.organization = organization) →
      st'.get? j = some dj) := by
  simp only [updateDataSource, hfc, Bool.false_eq_true, if_false] at hok
  cases hfind : List.find? (matchesKey id organization) st with
  | none =>
    simp only [hfind] at hok
    have hst : st = st' := congrArg Prod.snd hok
    subst hst
    refine ⟨rfl, ?_, fun _ _ _ _ => by assumption⟩
    intro j dj hj hid horg
    exfalso
    rw [List.find?_eq_none] at hfind
    exact hfind dj (List.get?_mem hj)
      (matchesKey_iff.mpr (by rw [keyOf, hid, horg]))
  | some d =>
    simp only [hfind] at hok
    by_cases hdup : List.any (deleteFirst (matchesKey id organization) st)
        (matchesKey (applyUpdates u d).id (applyUpdates u d).organization) = true
    · rw [if_pos hdup] at hok
      have h1 := congrArg Prod.fst hok
      simp at h1
    · rw [if_neg hdup] at hok
      have hst : st'
          = replaceFirst (matchesKey id organization) (fun _ => applyUpdates u d) st :=
        (congrArg Prod.snd hok).symm
      subst hst
      refine ⟨replaceFirst_length _ _ st, ?_, ?_⟩
      · intro j dj hj hid horg
        exact replaceFirst_get_match id organization u st d huniq hfind j dj hj
          (matchesKey_iff.mpr (by rw [keyOf, hid, horg]))
      · intro j dj hj hne
        refine replaceFirst_get_nomatch _ _ st j dj hj ?_
        rw [Bool.eq_false_iff]
        intro hcontra
        rw [matchesKey_iff] at hcontra
        exact hne ⟨congrArg Prod.fst hcontra, congrArg Prod.snd hcontra⟩

/-- Witness for C8 (amended): renaming the record keyed `("b", "acme")`
changes exactly that record and keeps `("a", "acme")` intact. -/
theorem updateDataSource_partial_merge_witness :
    (updateDataSource env0 [c8d1, c8d2] "b" "acme" c8rename).2.get? 1
      = some (applyUpdates c8rename c8d2) ∧
    (updateDataSource env0 [c8d1, c8d2] "b" "acme" c8rename).2.get? 0
      = some c8d1 := by
  have huniq : UniqueKeys [c8d1, c8d2] := by
    rw [UniqueKeys, List.pairwise_cons]
    refine ⟨?_, List.pairwise_singleton _ _⟩
    intro b hb
    rw [List.mem_singleton] at hb
    subst hb
    decide
  have h := updateDataSource_partial_merge env0 [c8d1, c8d2]
    (updateDataSource env0 [c8d1, c8d2] "b" "acme" c8rename).2
    "b" "acme" c8rename rfl huniq rfl
  exact ⟨h.2.1 1 c8d2 rfl rfl rfl, h.2.2 0 c8d1 rfl (by decide)⟩
